import Mathlib

/-!
Shallow embedding of the PyOTEL request-logging library
(`simple_logger/middleware.py` and `simple_logger/context.py`).

Python dicts holding log-record fields are modelled as association lists
`List (String × LVal)`; Python `None`/truthiness on strings is modelled
explicitly (`Option String`, empty string falsy); Python exceptions are
modelled as values of a structure `Exn` carrying an object identity and
`str(e)`; `time.time()` readings are supplied as rational parameters;
`str(uuid.uuid4())` is supplied as a `freshId` parameter.  Fire-and-forget
network sends are modelled by the request value they construct; the spawned
thread / event loop machinery adds no observable behaviour beyond that.
-/

namespace PyOTEL

/-- A JSON-ish value stored in a log-record field. -/
inductive LVal where
  | str (s : String)
  | num (q : ℚ)
  | dict (d : List (String × String))
  deriving Repr, DecidableEq

/-- A log record: the Python dict built by `_log_request` / `_log_error`,
as an association list in insertion order. -/
abbrev LogRecord := List (String × LVal)

/-- The keys present in a record. -/
def keysOf (r : LogRecord) : List String := r.map Prod.fst

/-- Dict lookup: first binding of the key. -/
def lookupKey (r : LogRecord) (k : String) : Option LVal :=
  (r.find? (fun p => p.1 = k)).map Prod.snd

/-- A Python exception: `ident` models object identity, `msg` models `str(e)`. -/
structure Exn where
  ident : Nat
  msg : String
  deriving Repr, DecidableEq

/-- Model of `dict.get` / header lookup on an association list. -/
def headerGet (hs : List (String × String)) (k : String) : Option String :=
  (hs.find? (fun p => p.1 = k)).map Prod.snd

/-- Model of `response.headers[k] = v`: overwrite-or-insert. -/
def setHeader (hs : List (String × String)) (k v : String) : List (String × String) :=
  (k, v) :: hs.filter (fun p => p.1 ≠ k)

/-- The inbound request, as the middleware sees it.  `body` stands for the
request body stream; the middleware never touches it. -/
structure Request where
  path : String
  method : String
  headers : List (String × String)
  cookies : List (String × String)
  query_params : List (String × String)
  client_host : Option String
  body : String
  deriving Repr, DecidableEq

/-- The response object returned by the downstream handler. -/
structure Response where
  status_code : Nat
  headers : List (String × String)
  deriving Repr, DecidableEq

/-- The `SimpleLoggerMiddleware.__init__` configuration (after the `or []`
defaulting of the exclusion lists). -/
structure MwConfig where
  exclude_paths : List String
  exclude_methods : List String
  log_request_body : Bool
  log_headers : Bool
  log_cookies : Bool
  deriving Repr, DecidableEq

/-- The mutable context observable from the middleware: the two context
variables of `context.py` and the list of records handed to the configured
sink (`self.log_function`). -/
structure TraceState where
  trace_id_var : Option String
  middleware_active : Bool
  logs : List LogRecord
  deriving Repr, DecidableEq

/-- Python `round(x, 2)` on the duration (half-up; the half-even corner
cases of Python's round never matter to any claim). -/
def round2 (x : ℚ) : ℚ := (⌊x * 100 + 1/2⌋ : ℚ) / 100

/-- Python truthiness of an `Optional[str]`: `None` and `""` are falsy. -/
def truthyOptStr : Option String → Bool
  | none => false
  | some s => s ≠ ""

/-- Model of `SimpleLoggerMiddleware._log_request`: builds the success log dict.
Field insertion order follows the source. -/
def log_request_record (cfg : MwConfig) (trace_id method path : String)
    (query_params headers cookies : List (String × String)) (body : Option String)
    (status_code : Nat) (duration : ℚ) (ip user_agent : String) (now : ℚ) : LogRecord :=
  let base : LogRecord :=
    [("trace_id", .str trace_id), ("method", .str method), ("path", .str path),
     ("query_params", .dict query_params), ("status_code", .num status_code),
     ("duration_ms", .num duration), ("ip", .str ip), ("user_agent", .str user_agent),
     ("timestamp", .num now)]
  let withHeaders := if cfg.log_headers then base ++ [("headers", .dict headers)] else base
  let withCookies := if cfg.log_cookies then withHeaders ++ [("cookies", .dict cookies)] else withHeaders
  if cfg.log_request_body && truthyOptStr body then
    withCookies ++ [("body", .str (body.getD ""))]
  else withCookies

/-- Model of `SimpleLoggerMiddleware._log_error`: builds the error log dict. -/
def log_error_record (cfg : MwConfig) (trace_id method path : String)
    (query_params headers cookies : List (String × String)) (body : Option String)
    (status_code : Nat) (duration : ℚ) (ip user_agent : String) (error : String)
    (now : ℚ) : LogRecord :=
  let base : LogRecord :=
    [("trace_id", .str trace_id), ("method", .str method), ("path", .str path),
     ("query_params", .dict query_params), ("status_code", .num status_code),
     ("duration_ms", .num duration), ("ip", .str ip), ("user_agent", .str user_agent),
     ("error", .str error), ("timestamp", .num now)]
  let withHeaders := if cfg.log_headers then base ++ [("headers", .dict headers)] else base
  let withCookies := if cfg.log_cookies then withHeaders ++ [("cookies", .dict cookies)] else withHeaders
  if cfg.log_request_body && truthyOptStr body then
    withCookies ++ [("body", .str (body.getD ""))]
  else withCookies

/-- Model of `SimpleLoggerMiddleware.dispatch`.  Here `call_next` is the downstream
handler (returning a response or raising); `freshId` is the value of
`str(uuid.uuid4())`; `t0`/`t1` are the two `time.time()` readings around
the handler and `tlog` the reading inside the log-building helper.
Returns the outcome (the re-raised exception on the failure path) and the
context state after the call. -/
def dispatch (cfg : MwConfig) (req : Request)
    (call_next : Request → Except Exn Response)
    (freshId : String) (t0 t1 tlog : ℚ) (st : TraceState) :
    Except Exn Response × TraceState :=
  if req.path ∈ cfg.exclude_paths ∨ req.method ∈ cfg.exclude_methods then
    (call_next req, st)
  else
    let st1 := { st with middleware_active := true }
    let ip := req.client_host.getD "unknown"
    let user_agent := (headerGet req.headers "user-agent").getD "unknown"
    let cookies := if cfg.log_cookies then req.cookies else []
    let trace_id := (headerGet req.headers "X-Trace-Id").getD freshId
    let st2 := { st1 with trace_id_var := some trace_id }
    let query_params := req.query_params
    let headers := if cfg.log_headers then req.headers else []
    let body : Option String :=
      if cfg.log_request_body then some "<body reading disabled>" else none
    match call_next req with
    | .error e =>
      let duration := round2 ((t1 - t0) * 1000)
      let record := log_error_record cfg trace_id req.method req.path query_params
        headers cookies body 500 duration ip user_agent e.msg tlog
      (.error e, { st2 with logs := st2.logs ++ [record], middleware_active := false })
    | .ok resp =>
      let duration := round2 ((t1 - t0) * 1000)
      let resp1 := { resp with headers := setHeader resp.headers "X-Trace-Id" trace_id }
      let record := log_request_record cfg trace_id req.method req.path query_params
        headers cookies body resp.status_code duration ip user_agent tlog
      (.ok resp1, { st2 with logs := st2.logs ++ [record], middleware_active := false })

/-! ## `context.py`: the remote sink, the tagged print, and `with_trace_id` -/

/-- One entry of the `messages` array built by `send_to_api`. -/
structure MsgEnvelope where
  message : String
  mtype : String
  level : String
  timestamp : ℚ
  deriving Repr, DecidableEq

/-- The JSON object placed under the `"data"` key by `send_to_api`. -/
structure MsgPayload where
  messages : List MsgEnvelope
  trace_id : String
  timestamp : ℚ
  deriving Repr, DecidableEq

/-- The HTTP POST issued by `send_to_api`: url, the `"data"` payload,
`Content-Type` header and timeout in seconds. -/
structure MsgPost where
  url : String
  data_payload : MsgPayload
  content_type : String
  timeout : ℚ
  deriving Repr, DecidableEq

/-- Model of `send_to_api`: builds the payload (`trace_id = trace_id or "default"`,
Python `or` treating `None` and `""` as falsy) and the POST it performs.
`now` is the `time.time()` reading. -/
def send_to_api (message : String) (trace_id : Option String)
    (log_type log_level : String) (now : ℚ) : MsgPost :=
  let tid := match trace_id with
    | none => "default"
    | some s => if s = "" then "default" else s
  { url := "http://0.0.0.0:8080"
    data_payload :=
      { messages := [⟨message, log_type, log_level, now⟩]
        trace_id := tid
        timestamp := now }
    content_type := "application/json"
    timeout := 1 }

/-- Everything `traced_print` does that the outside world can see: the
argument lists passed to the saved `original_print`, the POSTs attempted by
`send_to_api` (which catches its own transport errors), and the lines
written to the local error channel (`logging.error`). -/
structure PrintEffects where
  printed : List (List String)
  posts : List MsgPost
  errlog : List String
  deriving Repr, DecidableEq

/-- The `try` body of `traced_print` (lines 93-107 of `context.py`).
`args` are the positional arguments after `str` conversion; `joinFail`
models a failure while building `message` (line 95, e.g. a raising
`__str__`), `tagFail` a failure while formatting the trace tag (line 102);
`netFail` models a transport error inside `send_to_api`'s detached send,
which that function catches and only logs locally. -/
def traced_print_try (args : List String) (ctx : Option String)
    (joinFail tagFail netFail : Bool) (now : ℚ) : Except Exn PrintEffects :=
  if joinFail then .error ⟨1001, "join failed"⟩
  else
    let message := " ".intercalate args
    match ctx with
    | some t =>
      if t ≠ "" then
        if tagFail then .error ⟨1002, "tag failed"⟩
        else
          let line := ("[trace_id: " ++ t ++ "]") :: args
          let post := send_to_api message (some t) "print" "INFO" now
          .ok { printed := [line], posts := [post]
                errlog := if netFail then ["Error sending log to API"] else [] }
      else
        let post := send_to_api message (some t) "print" "INFO" now
        .ok { printed := [args], posts := [post]
              errlog := if netFail then ["Error sending log to API"] else [] }
    | none =>
      let post := send_to_api message none "print" "INFO" now
      .ok { printed := [args], posts := [post]
            errlog := if netFail then ["Error sending log to API"] else [] }

/-- Model of `traced_print`: the `try` body with its blanket `except`, which
re-emits the original arguments via `original_print` and writes the error
to the local channel.  Total: the call never raises. -/
def traced_print (args : List String) (ctx : Option String)
    (joinFail tagFail netFail : Bool) (now : ℚ) : PrintEffects :=
  match traced_print_try args ctx joinFail tagFail netFail now with
  | .ok eff => eff
  | .error e => { printed := [args], posts := [], errlog := ["Error in traced_print: " ++ e.msg] }

/-- A `contextvars` token: records the value the variable held when `set`
was called, so `reset` can restore it. -/
structure CtxToken where
  old_value : Option String
  deriving Repr, DecidableEq

/-- Model of `trace_id_var.set(v)`: returns the token and the new store value. -/
def ctxvar_set (v : Option String) (s : Option String) : CtxToken × Option String :=
  (⟨s⟩, v)

/-- Model of `trace_id_var.reset(token)`: restores the value recorded in the token. -/
def ctxvar_reset (tok : CtxToken) (_s : Option String) : Option String :=
  tok.old_value

/-- The synchronous `wrapper` produced by `with_trace_id(trace_id)`:
`token = set(trace_id); try: return func(...) finally: reset(token)`.
A body is a state transformer on the trace store that returns normally or
raises. -/
def with_trace_id_sync {α : Type} (trace_id : String)
    (func : Option String → Except Exn α × Option String)
    (s : Option String) : Except Exn α × Option String :=
  let set_result := ctxvar_set (some trace_id) s
  let body_result := func set_result.2
  (body_result.1, ctxvar_reset set_result.1 body_result.2)

/-- The `async_wrapper` produced by `with_trace_id(trace_id)`: identical
except that the body is awaited; in the embedding the awaited body is the
same kind of state transformer. -/
def with_trace_id_async {α : Type} (trace_id : String)
    (func : Option String → Except Exn α × Option String)
    (s : Option String) : Except Exn α × Option String :=
  let set_result := ctxvar_set (some trace_id) s
  let body_result := func set_result.2
  (body_result.1, ctxvar_reset set_result.1 body_result.2)

/-! ## `api_log_function` and the `SimpleLogger` wrapper -/

/-- The HTTP POST issued by `api_log_function`: the `"data"` key of the
JSON body holds the (possibly timestamp-extended) log record. -/
structure RecordPost where
  url : String
  data_payload : LogRecord
  content_type : String
  timeout : ℚ
  deriving Repr, DecidableEq

/-- Model of `api_log_function`: adds a `timestamp` field valued at the send-time
clock reading `now` when the record lacks one, then POSTs
`{"data": log_data}` with `Content-Type: application/json` and a 2 s
timeout; the response is discarded (`pass`). -/
def api_log_function (log_data : LogRecord) (now : ℚ) : RecordPost :=
  let log_data1 :=
    if "timestamp" ∈ keysOf log_data then log_data
    else log_data ++ [("timestamp", .num now)]
  { url := "http://0.0.0.0:8080"
    data_payload := log_data1
    content_type := "application/json"
    timeout := 2 }

/-- Process-wide effects of installing the tagged output sink:
`builtins.print` replaced and the API handler added to the root logger. -/
structure ProcState where
  print_patched : Bool
  api_handler_installed : Bool
  deriving Repr, DecidableEq

/-- Model of `setup_traced_print`: patches `builtins.print` and installs the root
logging handler. -/
def setup_traced_print (_ps : ProcState) : ProcState :=
  { print_patched := true, api_handler_installed := true }

/-- The options stored on a `SimpleLogger` instance (`None`-able exclusion
lists kept as `Option`, defaulted only when the middleware is built). -/
structure SLOptions where
  exclude_paths : Option (List String)
  exclude_methods : Option (List String)
  log_request_body : Bool
  log_headers : Bool
  log_cookies : Bool
  patch_print : Bool
  deriving Repr, DecidableEq

/-- Model of `SimpleLogger.__init__`: stores the options and, when `patch_print`
is true, installs the tagged output sink immediately. -/
def SimpleLogger_init (opts : SLOptions) (ps : ProcState) : SLOptions × ProcState :=
  (opts, if opts.patch_print then setup_traced_print ps else ps)

/-- The defaulting applied by `SimpleLoggerMiddleware.__init__` of the exclusion lists
(`exclude_paths or []`). -/
def mwConfigOf (opts : SLOptions) : MwConfig :=
  { exclude_paths := opts.exclude_paths.getD []
    exclude_methods := opts.exclude_methods.getD []
    log_request_body := opts.log_request_body
    log_headers := opts.log_headers
    log_cookies := opts.log_cookies }

/-- An application instance: the stack of registered middleware configs. -/
structure App where
  middlewares : List MwConfig
  deriving Repr, DecidableEq

/-- Model of `SimpleLogger.__call__` on a `FastAPI` app: registers the middleware
via `add_middleware` with the stored options and returns the app; the
process state is untouched. -/
def SimpleLogger_call (opts : SLOptions) (app : App) (ps : ProcState) : App × ProcState :=
  ({ middlewares := mwConfigOf opts :: app.middlewares }, ps)

/-! ## Helper lemmas -/

theorem headerGet_setHeader (hs : List (String × String)) (k v : String) :
    headerGet (setHeader hs k v) k = some v := by
  simp [headerGet, setHeader]

/-! ## Claim theorems -/

/-- Claim C3: running a body wrapped by `with_trace_id t` executes the body
with the trace context store holding `t`; afterwards the store again holds
the prior value `v`, whether the body returned or raised, for both the
synchronous and the asynchronous wrapper; the body's outcome (value or
exception) is propagated unchanged. -/
theorem with_trace_id_scoped {α : Type} (t : String)
    (f : Option String → Except Exn α × Option String) (v : Option String) :
    (with_trace_id_sync t f v).2 = v ∧
    (with_trace_id_sync t f v).1 = (f (some t)).1 ∧
    (with_trace_id_async t f v).2 = v ∧
    (with_trace_id_async t f v).1 = (f (some t)).1 :=
  ⟨rfl, rfl, rfl, rfl⟩

/-- Claim C5: a request whose path or method is excluded passes through
untouched: the dispatch result is exactly the downstream handler's result
and the context state (trace variable, middleware-active marker, sink log
list) is returned unchanged. -/
theorem dispatch_excluded_passthrough (cfg : MwConfig) (req : Request)
    (call_next : Request → Except Exn Response) (freshId : String)
    (t0 t1 tlog : ℚ) (st : TraceState)
    (h : req.path ∈ cfg.exclude_paths ∨ req.method ∈ cfg.exclude_methods) :
    dispatch cfg req call_next freshId t0 t1 tlog st = (call_next req, st) := by
  unfold dispatch
  rw [if_pos h]

/-- Witness for C5 at a concrete excluded path. -/
theorem dispatch_excluded_passthrough_witness :
    (("/health" : String) ∈ ["/health"] ∨ ("GET" : String) ∈ ([] : List String)) ∧
    dispatch ⟨["/health"], [], true, true, true⟩
      ⟨"/health", "GET", [], [], [], none, ""⟩
      (fun _ => .ok ⟨200, []⟩) "fid" 0 0 0 ⟨none, false, []⟩
      = (Except.ok ⟨200, []⟩, ⟨none, false, []⟩) :=
  ⟨Or.inl (by decide),
   dispatch_excluded_passthrough _ _ _ _ _ _ _ _ (Or.inl (by decide))⟩

/-- Claim C10: when `send_to_api` is called with no active trace identifier
(`None` or the empty string, both falsy in Python), the `trace_id` field of
the payload sent to the remote sink is the literal string `"default"`. -/
theorem send_to_api_default_trace_id (message log_type log_level : String)
    (now : ℚ) (t : Option String) (h : t = none ∨ t = some "") :
    (send_to_api message t log_type log_level now).data_payload.trace_id = "default" := by
  rcases h with h | h <;> subst h <;> rfl

/-- Witness for C10 at a concrete untraced call. -/
theorem send_to_api_default_trace_id_witness :
    ((none : Option String) = none ∨ (none : Option String) = some "") ∧
    (send_to_api "hello" none "print" "INFO" 0).data_payload.trace_id = "default" :=
  ⟨Or.inl rfl, send_to_api_default_trace_id "hello" "print" "INFO" 0 none (Or.inl rfl)⟩

/-- Counterexample to claim C7: constructing `SimpleLogger` with
`patch_print = true`, without ever applying it to an application, already
patches `builtins.print` — contradicting the claim that the sink is
installed only at the moment the wrapper is applied (`__call__`) and that
constructing it installs nothing. -/
theorem simple_logger_init_installs_cex :
    ((SimpleLogger_init ⟨none, none, false, true, true, true⟩
        ⟨false, false⟩).2).print_patched = true := rfl

/-- Claim C7 (amended): with `patch_print` true the tagged output sink is
installed process-wide already at construction (`__init__`); with it false,
construction leaves the process state unchanged.  Applying the wrapper
(`__call__`) registers the middleware with the configured options and does
not change the process patch state. -/
theorem simple_logger_install_time (opts : SLOptions) (ps : ProcState) (app : App) :
    (opts.patch_print = true →
      (SimpleLogger_init opts ps).2 = ⟨true, true⟩) ∧
    (opts.patch_print = false → (SimpleLogger_init opts ps).2 = ps) ∧
    (SimpleLogger_call opts app ps).2 = ps ∧
    (SimpleLogger_call opts app ps).1.middlewares = mwConfigOf opts :: app.middlewares := by
  refine ⟨fun h => ?_, fun h => ?_, rfl, rfl⟩ <;>
    simp [SimpleLogger_init, setup_traced_print, h]

/-- Witness for C7 (amended) at concrete options and process state. -/
theorem simple_logger_install_time_witness :
    ((⟨none, none, false, true, true, true⟩ : SLOptions).patch_print = true →
      (SimpleLogger_init ⟨none, none, false, true, true, true⟩ ⟨false, false⟩).2 = ⟨true, true⟩) ∧
    ((⟨none, none, false, true, true, true⟩ : SLOptions).patch_print = false →
      (SimpleLogger_init ⟨none, none, false, true, true, true⟩ ⟨false, false⟩).2 = ⟨false, false⟩) ∧
    (SimpleLogger_call ⟨none, none, false, true, true, true⟩ ⟨[]⟩ ⟨false, false⟩).2 = ⟨false, false⟩ ∧
    (SimpleLogger_call ⟨none, none, false, true, true, true⟩ ⟨[]⟩ ⟨false, false⟩).1.middlewares
      = mwConfigOf ⟨none, none, false, true, true, true⟩ :: ([] : List MwConfig) :=
  simple_logger_install_time ⟨none, none, false, true, true, true⟩ ⟨false, false⟩ ⟨[]⟩

/-- Counterexample to claim C8: for a record that already carries a
`timestamp` field, `api_log_function` keeps the old value, so the payload's
timestamp is not the send-time reading (here 5 versus send time 99). -/
theorem api_log_function_old_timestamp_cex :
    lookupKey (api_log_function [("timestamp", .num 5)] 99).data_payload "timestamp"
      = some (.num 5) ∧
    lookupKey (api_log_function [("timestamp", .num 5)] 99).data_payload "timestamp"
      ≠ some (.num 99) := by
  exact ⟨rfl, by decide⟩

/-- Claim C8 (amended): the POST issued by `api_log_function` goes to the
fixed endpoint with JSON body exactly `{"data": record'}` and header
`Content-Type: application/json` and a timeout in the 1–2 second range,
where `record'` is the record extended with a send-time `timestamp` field
when it lacks one; a record that already has a `timestamp` field is
embedded unchanged.  The response is never consumed. -/
theorem api_log_function_post_shape (log_data : LogRecord) (now : ℚ) :
    (api_log_function log_data now).url = "http://0.0.0.0:8080" ∧
    (api_log_function log_data now).content_type = "application/json" ∧
    1 ≤ (api_log_function log_data now).timeout ∧
    (api_log_function log_data now).timeout ≤ 2 ∧
    "timestamp" ∈ keysOf (api_log_function log_data now).data_payload ∧
    ("timestamp" ∈ keysOf log_data →
      (api_log_function log_data now).data_payload = log_data) ∧
    ("timestamp" ∉ keysOf log_data →
      (api_log_function log_data now).data_payload
        = log_data ++ [("timestamp", .num now)]) := by
  refine ⟨rfl, rfl, by norm_num [api_log_function], by norm_num [api_log_function], ?_, ?_, ?_⟩
  · show "timestamp" ∈ keysOf (if "timestamp" ∈ keysOf log_data then log_data
      else log_data ++ [("timestamp", .num now)])
    by_cases h : "timestamp" ∈ keysOf log_data
    · rwa [if_pos h]
    · rw [if_neg h]; simp [keysOf]
  · intro h
    show (if "timestamp" ∈ keysOf log_data then log_data
      else log_data ++ [("timestamp", .num now)]) = log_data
    rw [if_pos h]
  · intro h
    show (if "timestamp" ∈ keysOf log_data then log_data
      else log_data ++ [("timestamp", .num now)]) = log_data ++ [("timestamp", .num now)]
    rw [if_neg h]

/-- Witness for C8 (amended) on a record lacking a timestamp. -/
theorem api_log_function_post_shape_witness :
    ("timestamp" ∉ keysOf [(("trace_id" : String), LVal.str "t")]) ∧
    (api_log_function [("trace_id", .str "t")] 42).data_payload
      = [("trace_id", .str "t"), ("timestamp", .num 42)] ∧
    "timestamp" ∈ keysOf (api_log_function [("trace_id", .str "t")] 42).data_payload :=
  ⟨by decide,
   (api_log_function_post_shape [("trace_id", .str "t")] 42).2.2.2.2.2.2 (by decide),
   (api_log_function_post_shape [("trace_id", .str "t")] 42).2.2.2.2.1⟩

/-- Claim C6: every log record the middleware builds (success and error
path) has a `trace_id` field; `headers` is present iff header logging is
on, `cookies` iff cookie logging is on, `body` only if body logging is on;
the untoggled fields (`method`, `path`, `query_params`, `status_code`,
`duration_ms`, `ip`, `user_agent`, `timestamp`) are always present. -/
theorem middleware_record_fields (cfg : MwConfig) (trace_id method path : String)
    (query_params headers cookies : List (String × String)) (body : Option String)
    (status_code : Nat) (duration : ℚ) (ip user_agent : String) (error : String)
    (now : ℚ) :
    ("trace_id" ∈ keysOf (log_request_record cfg trace_id method path query_params
        headers cookies body status_code duration ip user_agent now) ∧
      ("headers" ∈ keysOf (log_request_record cfg trace_id method path query_params
        headers cookies body status_code duration ip user_agent now) ↔ cfg.log_headers = true) ∧
      ("cookies" ∈ keysOf (log_request_record cfg trace_id method path query_params
        headers cookies body status_code duration ip user_agent now) ↔ cfg.log_cookies = true) ∧
      ("body" ∈ keysOf (log_request_record cfg trace_id method path query_params
        headers cookies body status_code duration ip user_agent now) → cfg.log_request_body = true) ∧
      ∀ k ∈ ["method", "path", "query_params", "status_code", "duration_ms", "ip",
        "user_agent", "timestamp"],
        k ∈ keysOf (log_request_record cfg trace_id method path query_params
          headers cookies body status_code duration ip user_agent now)) ∧
    ("trace_id" ∈ keysOf (log_error_record cfg trace_id method path query_params
        headers cookies body status_code duration ip user_agent error now) ∧
      ("headers" ∈ keysOf (log_error_record cfg trace_id method path query_params
        headers cookies body status_code duration ip user_agent error now) ↔ cfg.log_headers = true) ∧
      ("cookies" ∈ keysOf (log_error_record cfg trace_id method path query_params
        headers cookies body status_code duration ip user_agent error now) ↔ cfg.log_cookies = true) ∧
      ("body" ∈ keysOf (log_error_record cfg trace_id method path query_params
        headers cookies body status_code duration ip user_agent error now) → cfg.log_request_body = true) ∧
      ∀ k ∈ ["method", "path", "query_params", "status_code", "duration_ms", "ip",
        "user_agent", "timestamp"],
        k ∈ keysOf (log_error_record cfg trace_id method path query_params
          headers cookies body status_code duration ip user_agent error now)) := by
  obtain ⟨ep, em, b1, b2, b3⟩ := cfg
  cases b1 <;> cases b2 <;> cases b3 <;> cases htb : truthyOptStr body <;>
    simp [log_request_record, log_error_record, keysOf, htb]

/-- Witness for C6 at a concrete configuration with all toggles on. -/
theorem middleware_record_fields_witness :
    "trace_id" ∈ keysOf (log_request_record ⟨[], [], true, true, true⟩ "t" "GET" "/p"
      [] [] [] (some "<body reading disabled>") 200 0 "ip" "ua" 0) ∧
    "headers" ∈ keysOf (log_request_record ⟨[], [], true, true, true⟩ "t" "GET" "/p"
      [] [] [] (some "<body reading disabled>") 200 0 "ip" "ua" 0) ∧
    "error" ∈ keysOf (log_error_record ⟨[], [], true, true, true⟩ "t" "GET" "/p"
      [] [] [] (some "<body reading disabled>") 500 0 "ip" "ua" "boom" 0) := by
  have h := middleware_record_fields ⟨[], [], true, true, true⟩ "t" "GET" "/p"
    [] [] [] (some "<body reading disabled>") 200 0 "ip" "ua" "boom" 0
  exact ⟨h.1.1, h.1.2.1.mpr rfl, by decide⟩

/-- Claim C9: with body logging enabled, the `body` field of the record a
non-excluded request produces is the constant `"<body reading disabled>"`,
and the whole dispatch outcome is independent of the request's actual body
stream (the middleware never reads it). -/
theorem dispatch_body_never_read (cfg : MwConfig) (req : Request)
    (h : Except Exn Response) (freshId : String) (t0 t1 tlog : ℚ) (st : TraceState)
    (hbody : cfg.log_request_body = true)
    (hexc : ¬ (req.path ∈ cfg.exclude_paths ∨ req.method ∈ cfg.exclude_methods)) :
    (∃ record, (dispatch cfg req (fun _ => h) freshId t0 t1 tlog st).2.logs
        = st.logs ++ [record] ∧
      lookupKey record "body" = some (.str "<body reading disabled>")) ∧
    (∀ b : String,
      dispatch cfg { req with body := b } (fun _ => h) freshId t0 t1 tlog st
        = dispatch cfg req (fun _ => h) freshId t0 t1 tlog st) := by
  obtain ⟨ep, em, b1, b2, b3⟩ := cfg
  cases b1 with
  | false => exact absurd hbody (by simp)
  | true =>
    constructor
    · unfold dispatch
      rw [if_neg hexc]
      cases h with
      | ok resp => exact ⟨_, rfl, by cases b2 <;> cases b3 <;> rfl⟩
      | error e => exact ⟨_, rfl, by cases b2 <;> cases b3 <;> rfl⟩
    · intro b
      rfl

/-- Witness for C9 at a concrete request, with the body changed between
two runs. -/
theorem dispatch_body_never_read_witness :
    (⟨[], [], true, true, true⟩ : MwConfig).log_request_body = true ∧
    ¬ (("/x" : String) ∈ ([] : List String) ∨ ("GET" : String) ∈ ([] : List String)) ∧
    (∃ record, (dispatch ⟨[], [], true, true, true⟩ ⟨"/x", "GET", [], [], [], none, "secret"⟩
        (fun _ => .ok ⟨200, []⟩) "fid" 0 0 0 ⟨none, false, []⟩).2.logs = [] ++ [record] ∧
      lookupKey record "body" = some (.str "<body reading disabled>")) ∧
    dispatch ⟨[], [], true, true, true⟩ ⟨"/x", "GET", [], [], [], none, "other"⟩
        (fun _ => .ok ⟨200, []⟩) "fid" 0 0 0 ⟨none, false, []⟩
      = dispatch ⟨[], [], true, true, true⟩ ⟨"/x", "GET", [], [], [], none, "secret"⟩
        (fun _ => .ok ⟨200, []⟩) "fid" 0 0 0 ⟨none, false, []⟩ := by
  have h := dispatch_body_never_read ⟨[], [], true, true, true⟩
    ⟨"/x", "GET", [], [], [], none, "secret"⟩ (.ok ⟨200, []⟩) "fid" 0 0 0
    ⟨none, false, []⟩ rfl (by decide)
  exact ⟨rfl, by decide, h.1, h.2 "other"⟩

/-- Counterexample to claim C1: for a non-excluded request whose handler
raises, `dispatch` re-raises and returns no response at all, so no
`X-Trace-Id` response header is set by the middleware — the claim's
extension to the raising outcome fails. -/
theorem dispatch_raise_no_response_cex :
    (dispatch ⟨[], [], true, true, true⟩ ⟨"/x", "GET", [], [], [], none, ""⟩
      (fun _ => .error ⟨7, "boom"⟩) "fid-1" 0 0 0 ⟨none, false, []⟩).1
      = Except.error ⟨7, "boom"⟩ := rfl

/-- Claim C1 (amended): for a non-excluded request whose handler returns
normally, the response carries an `X-Trace-Id` header equal to the inbound
`X-Trace-Id` value when one was supplied, and to the freshly generated
identifier otherwise; the value is non-empty provided the generated
identifier is (a UUID string always is) and any supplied inbound value is.
When the handler raises, `dispatch` re-raises the original exception and
returns no response, so no header is set. -/
theorem dispatch_trace_header (cfg : MwConfig) (req : Request)
    (call_next : Request → Except Exn Response) (freshId : String)
    (t0 t1 tlog : ℚ) (st : TraceState)
    (hexc : ¬ (req.path ∈ cfg.exclude_paths ∨ req.method ∈ cfg.exclude_methods))
    (hfresh : freshId ≠ "")
    (hin : ∀ v, headerGet req.headers "X-Trace-Id" = some v → v ≠ "") :
    (∀ resp, call_next req = .ok resp →
      ∃ resp1 tid,
        (dispatch cfg req call_next freshId t0 t1 tlog st).1 = .ok resp1 ∧
        headerGet resp1.headers "X-Trace-Id" = some tid ∧
        tid ≠ "" ∧
        (∀ v, headerGet req.headers "X-Trace-Id" = some v → tid = v) ∧
        (headerGet req.headers "X-Trace-Id" = none → tid = freshId)) ∧
    (∀ e, call_next req = .error e →
      (dispatch cfg req call_next freshId t0 t1 tlog st).1 = .error e) := by
  constructor
  · intro resp hok
    unfold dispatch
    rw [if_neg hexc, hok]
    refine ⟨_, (headerGet req.headers "X-Trace-Id").getD freshId, rfl,
      headerGet_setHeader _ _ _, ?_, ?_, ?_⟩
    · cases hh : headerGet req.headers "X-Trace-Id" with
      | none => simpa [hh] using hfresh
      | some v => simpa [hh] using hin v hh
    · intro v hv
      rw [hv]
      rfl
    · intro hnone
      rw [hnone]
      rfl
  · intro e herr
    unfold dispatch
    rw [if_neg hexc, herr]

/-- Witness for C1 (amended): a request that supplies `X-Trace-Id: abc`
gets `abc` back on the response. -/
theorem dispatch_trace_header_witness :
    (¬ (("/x" : String) ∈ ([] : List String) ∨ ("GET" : String) ∈ ([] : List String))) ∧
    ("fid-1" : String) ≠ "" ∧
    (∃ resp1 tid,
      (dispatch ⟨[], [], true, true, true⟩
        ⟨"/x", "GET", [("X-Trace-Id", "abc")], [], [], none, ""⟩
        (fun _ => .ok ⟨200, []⟩) "fid-1" 0 0 0 ⟨none, false, []⟩).1 = .ok resp1 ∧
      headerGet resp1.headers "X-Trace-Id" = some tid ∧
      tid ≠ "" ∧
      (∀ v, headerGet [(("X-Trace-Id" : String), ("abc" : String))] "X-Trace-Id" = some v → tid = v) ∧
      (headerGet [(("X-Trace-Id" : String), ("abc" : String))] "X-Trace-Id" = none → tid = "fid-1")) := by
  refine ⟨by decide, by decide, ?_⟩
  exact (dispatch_trace_header ⟨[], [], true, true, true⟩
    ⟨"/x", "GET", [("X-Trace-Id", "abc")], [], [], none, ""⟩
    (fun _ => .ok ⟨200, []⟩) "fid-1" 0 0 0 ⟨none, false, []⟩
    (by decide) (by decide)
    (by intro v hv
        have hv1 : some "abc" = some v := hv
        cases hv1
        decide)).1 ⟨200, []⟩ rfl

/-- Counterexample to claim C2: a handler raising an exception whose
description is empty (Python `str(e) = ""`, e.g. `Exception()`) yields a
log record whose `error` field is the empty string — not non-empty. -/
theorem dispatch_empty_error_cex :
    (dispatch ⟨[], [], true, true, true⟩ ⟨"/x", "GET", [], [], [], none, ""⟩
      (fun _ => .error ⟨3, ""⟩) "fid-2" 0 0 0 ⟨none, false, []⟩).2.logs.length = 1 ∧
    lookupKey ((dispatch ⟨[], [], true, true, true⟩ ⟨"/x", "GET", [], [], [], none, ""⟩
      (fun _ => .error ⟨3, ""⟩) "fid-2" 0 0 0 ⟨none, false, []⟩).2.logs.getD 0 [])
      "error" = some (.str "") :=
  ⟨rfl, rfl⟩

/-- Claim C2 (amended): for a non-excluded request whose handler raises,
`dispatch` passes exactly one log record to the sink, with `status_code`
500 and an `error` field equal to the exception's description (hence
non-empty whenever that description is), and then re-raises the very same
exception value. -/
theorem dispatch_error_path (cfg : MwConfig) (req : Request)
    (call_next : Request → Except Exn Response) (freshId : String)
    (t0 t1 tlog : ℚ) (st : TraceState) (e : Exn)
    (hexc : ¬ (req.path ∈ cfg.exclude_paths ∨ req.method ∈ cfg.exclude_methods))
    (herr : call_next req = .error e) :
    (dispatch cfg req call_next freshId t0 t1 tlog st).1 = .error e ∧
    ∃ record,
      (dispatch cfg req call_next freshId t0 t1 tlog st).2.logs = st.logs ++ [record] ∧
      lookupKey record "status_code" = some (.num 500) ∧
      lookupKey record "error" = some (.str e.msg) ∧
      (e.msg ≠ "" → ∀ s, lookupKey record "error" = some (.str s) → s ≠ "") := by
  obtain ⟨ep, em, b1, b2, b3⟩ := cfg
  unfold dispatch
  rw [if_neg hexc, herr]
  refine ⟨rfl, _, rfl, ?_, ?_, ?_⟩
  · cases b1 <;> cases b2 <;> cases b3 <;> rfl
  · cases b1 <;> cases b2 <;> cases b3 <;> rfl
  · intro hne s hs
    have hl : lookupKey (log_error_record ⟨ep, em, b1, b2, b3⟩
        ((headerGet req.headers "X-Trace-Id").getD freshId) req.method req.path
        req.query_params (if b2 = true then req.headers else [])
        (if b3 = true then req.cookies else [])
        (if b1 = true then some "<body reading disabled>" else none)
        500 (round2 ((t1 - t0) * 1000)) (req.client_host.getD "unknown")
        ((headerGet req.headers "user-agent").getD "unknown") e.msg tlog)
        "error" = some (.str e.msg) := by
      cases b1 <;> cases b2 <;> cases b3 <;> rfl
    rw [hl] at hs
    cases hs
    exact hne

/-- Witness for C2 (amended): a handler raising an exception with
description `boom` produces one 500 record with that error text and the
exception is re-raised unchanged. -/
theorem dispatch_error_path_witness :
    (¬ (("/x" : String) ∈ ([] : List String) ∨ ("GET" : String) ∈ ([] : List String))) ∧
    ((fun _ => Except.error ⟨7, "boom"⟩ : Request → Except Exn Response)
        ⟨"/x", "GET", [], [], [], none, ""⟩ = .error ⟨7, "boom"⟩) ∧
    (dispatch ⟨[], [], true, true, true⟩ ⟨"/x", "GET", [], [], [], none, ""⟩
      (fun _ => .error ⟨7, "boom"⟩) "fid-3" 0 0 0 ⟨none, false, []⟩).1
      = .error ⟨7, "boom"⟩ ∧
    ∃ record,
      (dispatch ⟨[], [], true, true, true⟩ ⟨"/x", "GET", [], [], [], none, ""⟩
        (fun _ => .error ⟨7, "boom"⟩) "fid-3" 0 0 0 ⟨none, false, []⟩).2.logs
        = [] ++ [record] ∧
      lookupKey record "status_code" = some (.num 500) ∧
      lookupKey record "error" = some (.str "boom") := by
  have h := dispatch_error_path ⟨[], [], true, true, true⟩
    ⟨"/x", "GET", [], [], [], none, ""⟩ (fun _ => .error ⟨7, "boom"⟩) "fid-3"
    0 0 0 ⟨none, false, []⟩ ⟨7, "boom"⟩ (by decide) rfl
  obtain ⟨h1, record, h2, h3, h4, _⟩ := h
  exact ⟨by decide, rfl, h1, record, h2, h3, h4⟩

/-- Claim C4: `traced_print` never raises (it is total for every argument
list and every failure of tagging or forwarding): exactly one line is
always handed to the underlying `original_print` and it carries the
original arguments, prefixed by the trace tag exactly on the untroubled
path with a truthy trace identifier; a tagging failure is caught, the
message re-emitted unmodified and the error written to the local channel;
a forwarding failure only adds a local error-channel line and leaves the
printed output unchanged. -/
theorem traced_print_total_spec (args : List String) (ctx : Option String)
    (joinFail tagFail netFail : Bool) (now : ℚ) :
    (∃ pre, (traced_print args ctx joinFail tagFail netFail now).printed = [pre ++ args] ∧
      (pre = [] ∨ ∃ t, ctx = some t ∧ pre = ["[trace_id: " ++ t ++ "]"])) ∧
    (joinFail = false → tagFail = false → truthyOptStr ctx = false →
      (traced_print args ctx joinFail tagFail netFail now).printed = [args]) ∧
    (joinFail = false → tagFail = false → ∀ t, ctx = some t → t ≠ "" →
      (traced_print args ctx joinFail tagFail netFail now).printed
        = [("[trace_id: " ++ t ++ "]") :: args]) ∧
    ((joinFail = true ∨ (tagFail = true ∧ truthyOptStr ctx = true)) →
      (traced_print args ctx joinFail tagFail netFail now).printed = [args] ∧
      (traced_print args ctx joinFail tagFail netFail now).errlog ≠ []) ∧
    (netFail = true → joinFail = false → tagFail = false →
      "Error sending log to API" ∈ (traced_print args ctx joinFail tagFail netFail now).errlog) ∧
    ((traced_print args ctx joinFail tagFail true now).printed
      = (traced_print args ctx joinFail tagFail false now).printed) := by
  refine ⟨?_, ?_, ?_, ?_, ?_, ?_⟩
  · cases joinFail with
    | true => exact ⟨[], rfl, Or.inl rfl⟩
    | false =>
      cases ctx with
      | none => exact ⟨[], rfl, Or.inl rfl⟩
      | some t =>
        by_cases ht : t = ""
        · refine ⟨[], ?_, Or.inl rfl⟩
          subst ht
          rfl
        · cases tagFail with
          | true =>
            refine ⟨[], ?_, Or.inl rfl⟩
            simp [traced_print, traced_print_try, ht]
          | false =>
            refine ⟨["[trace_id: " ++ t ++ "]"], ?_, Or.inr ⟨t, rfl, rfl⟩⟩
            simp [traced_print, traced_print_try, ht]
  · intro hj htf htr
    subst hj
    subst htf
    cases ctx with
    | none => rfl
    | some t =>
      have ht : t = "" := by simpa [truthyOptStr] using htr
      subst ht
      rfl
  · intro hj htf t htc htne
    subst hj
    subst htf
    subst htc
    simp [traced_print, traced_print_try, htne]
  · intro h
    rcases h with hj | ⟨htf, htc⟩
    · subst hj
      exact ⟨rfl, by simp [traced_print, traced_print_try]⟩
    · subst htf
      cases ctx with
      | none => simp [truthyOptStr] at htc
      | some t =>
        have ht : t ≠ "" := by simpa [truthyOptStr] using htc
        cases joinFail with
        | true => exact ⟨rfl, by simp [traced_print, traced_print_try]⟩
        | false =>
          constructor
          · simp [traced_print, traced_print_try, ht]
          · simp [traced_print, traced_print_try, ht]
  · intro hn hj htf
    subst hn
    subst hj
    subst htf
    cases ctx with
    | none => simp [traced_print, traced_print_try]
    | some t =>
      by_cases ht : t = ""
      · subst ht
        simp [traced_print, traced_print_try]
      · simp [traced_print, traced_print_try, ht]
  · cases joinFail with
    | true => rfl
    | false =>
      cases ctx with
      | none => rfl
      | some t =>
        by_cases ht : t = ""
        · subst ht
          rfl
        · cases tagFail <;> simp [traced_print, traced_print_try, ht]

/-- Witness for C4: with trace id `T` set the line is tagged; with no
trace id it is emitted unmodified. -/
theorem traced_print_total_spec_witness :
    (traced_print ["hello"] (some "T") false false false 0).printed
      = [("[trace_id: " ++ "T" ++ "]") :: ["hello"]] ∧
    (traced_print ["hello"] none false false false 0).printed = [["hello"]] :=
  ⟨(traced_print_total_spec ["hello"] (some "T") false false false 0).2.2.1
      rfl rfl "T" rfl (by decide),
   (traced_print_total_spec ["hello"] none false false false 0).2.1 rfl rfl rfl⟩

end PyOTEL
